import Mathlib

/-!
Verification of the SimpleEthercat master-side control logic: a shallow
embedding of the slave lifecycle state machine, the PDO-mapping helpers
(`si_PDOassign`, `si_siiPDO`, `si_map_sdo`), the cyclic exchange
(`updateProccess`) and the background monitor sweep (`_ecatcheck`).

Wire interactions (SOEM primitives such as `ec_SDOread`, `ec_statecheck`,
`ec_send_processdata`, `ec_receive_processdata`, `ec_reconfig_slave`,
`ec_recover_slave`) are modelled as explicit oracle inputs, and the bus
operations a function issues are recorded in an explicit trace, so every
member function becomes a pure function of its session state plus oracles.
-/

namespace SimpleEthercat

/-! ### EtherCAT state constants (SOEM `ethercattype.h`) -/

def EC_STATE_NONE : Nat := 0
def EC_STATE_INIT : Nat := 1
def EC_STATE_PRE_OP : Nat := 2
def EC_STATE_BOOT : Nat := 3
def EC_STATE_SAFE_OP : Nat := 4
def EC_STATE_OPERATIONAL : Nat := 8
def EC_STATE_ACK : Nat := 16
def EC_STATE_ERROR : Nat := 16

/-- SOEM return-path timeout in microseconds (`EC_TIMEOUTRET`). -/
def EC_TIMEOUTRET : Nat := 2000

/-- Monitor timeout used by `_ecatcheck` (`#define EC_TIMEOUTMON 500`). -/
def EC_TIMEOUTMON : Nat := 500

/-- SOEM bound on sync managers (`EC_MAXSM`). -/
def EC_MAXSM : Nat := 8

/-- SOEM bound on EEPROM PDO records (`EC_MAXEEPDO = 0x200`). -/
def EC_MAXEEPDO : Nat := 512

/-! ### Session state

Mirrors the private members of class `SimpleEthercat`: `_state`,
`_expectedWKC`, `_slaveCount`, `errorMessage`. -/

structure Session where
  state : Nat
  expectedWKC : Int
  slaveCount : Nat
  errorMessage : String
deriving Repr, DecidableEq

/-! ### C1: `updateProccess`

```
bool SimpleEthercat::updateProccess(void)
{
    ec_send_processdata();
    int wkc = ec_receive_processdata(EC_TIMEOUTRET);
    if(wkc < _expectedWKC)
        return FALSE;
    return TRUE;
}
```
The two bus operations are recorded in a trace; the work counter returned
by `ec_receive_processdata` is the oracle input `recvWkc`. -/

inductive BusOp where
  | sendProcessdata : BusOp
  | receiveProcessdata (timeout : Nat) : BusOp
deriving Repr, DecidableEq

def updateProccess (expectedWKC : Int) (recvWkc : Int) : List BusOp × Bool :=
  ([BusOp.sendProcessdata, BusOp.receiveProcessdata EC_TIMEOUTRET],
   if recvWkc < expectedWKC then false else true)

/-! ### C7: PDO sub-entry handling in `si_PDOassign` and `si_siiPDO`

`si_PDOassign` (part_000, lines 501-524): for each sub-entry it extracts
`bitlen`, `obj_idx`, `obj_subidx` from the 32-bit descriptor word, adds
`bitlen` to `bsize`, consults the object dictionary only when the entry is
not a filler (`if(obj_idx || obj_subidx) wkc = ec_readOEsingle(...)`), and
prints the dictionary name only when that read succeeded; `bitoffset`
advances by `bitlen` unconditionally.  `dictEntries` models
`(wkc > 0) && OElist.Entries` for the dictionary read. -/

def pdoAssignEntry (dictEntries : Bool) (objIdx objSub bitlen bitoffset bsize : Nat) :
    Option (Nat × Nat × Nat) × Nat × Nat :=
  let wkcRow := if objIdx ≠ 0 ∨ objSub ≠ 0 then dictEntries else false
  (if wkcRow then some (objIdx, objSub, bitlen) else none,
   bitoffset + bitlen, bsize + bitlen)

/-- `si_siiPDO` (part_000, lines 679-706): per entry, the named mapping row
is printed only when the entry is not a filler
(`if(obj_idx || obj_subidx)`), while `bitoffset += bitlen` and
`totalsize += bitlen` happen unconditionally. -/
def siiPDOEntry (objIdx objSub bitlen bitoffset totalsize : Nat) :
    Option (Nat × Nat × Nat) × Nat × Nat :=
  (if objIdx ≠ 0 ∨ objSub ≠ 0 then some (objIdx, objSub, bitlen) else none,
   bitoffset + bitlen, totalsize + bitlen)

/-! ### C10: `_slaveStateNum2Str` and `showStates` -/

/-- `SimpleEthercat::_slaveStateNum2Str` (part_003, lines 547-579): a switch
on the raw state value; both `case EC_STATE_NONE` and `default` yield
`"NONE"`. -/
def slaveStateNum2Str (numState : Nat) : String :=
  if numState = EC_STATE_BOOT then "Boot"
  else if numState = EC_STATE_INIT then "INIT"
  else if numState = EC_STATE_PRE_OP then "PRE_OP"
  else if numState = EC_STATE_SAFE_OP then "SAFE_OP"
  else if numState = EC_STATE_OPERATIONAL then "OP"
  else if numState = EC_STATE_NONE then "NONE"
  else if numState = EC_STATE_ERROR then "ERROR/ACK"
  else "NONE"

/-- One line of `SimpleEthercat::showStates` (part_003, lines 384-396):
for slave `i` it prints the state rendered through `_slaveStateNum2Str`
together with the raw AL status code and its text. -/
def showStatesRender (slaves : List (Nat × Nat)) : List (String × Nat) :=
  slaves.map (fun p => (slaveStateNum2Str p.1, p.2))

/-- The state column of `SimpleEthercat::listSlaves` (part_003, lines
148-160), which renders each slave's state through the same
`_slaveStateNum2Str`. -/
def listSlavesRender (states : List Nat) : List String :=
  states.map slaveStateNum2Str

/-! ### C9: `configSlaves` and the state-transition helpers.

The bounded poll loop shared by `setInitState`, `setPreOperationalState`
and `setOperationalState`:

```
int chk = 200;
do { ...body... } while (chk-- && (ec_slave[0].state != TARGET));
```

`rep k` is the value `ec_slave[0].state` holds after the `k`-th body
execution (the body refreshes it via `ec_statecheck`).  `pollCountAux`
returns the number of body executions: the body runs once, then repeats
while the post-decremented budget is nonzero and the representative state
differs from the target. -/

def pollCountAux (rep : Nat → Nat) (target : Nat) : Nat → Nat → Nat
  | 0, k => k + 1
  | chk + 1, k =>
    if rep k = target then k + 1 else pollCountAux rep target chk (k + 1)

/-- Number of poll-body executions with the source's budget `chk = 200`. -/
def pollCount (rep : Nat → Nat) (target : Nat) : Nat :=
  pollCountAux rep target 200 0

/-- `SimpleEthercat::setPreOperationalState` (part_003, lines 244-268):
statecheck, readstate, assign representative, one exchange, broadcast
write, bounded poll — then `_state = EC_STATE_PRE_OP` and `return true`
unconditionally; `errorMessage` is never touched. -/
def setPreOperationalState (sess : Session) (rep : Nat → Nat) :
    Bool × Session × Nat :=
  (true, { sess with state := EC_STATE_PRE_OP }, pollCount rep EC_STATE_PRE_OP)

/-- `SimpleEthercat::setInitState` (part_003, lines 220-242): identical
protocol with target `EC_STATE_INIT`, but the function is `void`: no
success flag at all, `_state = EC_STATE_INIT` unconditionally,
`errorMessage` never touched. -/
def setInitState (sess : Session) (rep : Nat → Nat) : Session × Nat :=
  ({ sess with state := EC_STATE_INIT }, pollCount rep EC_STATE_INIT)

/-- The scan `for (cnt = 1; cnt <= ec_slavecount; cnt++)` used by
`configSlaves` (part_003, lines 70-77) and `setOperationalState`
(lines 205-213): walk indices `i, i+1, ...` for `remaining` steps and stop
at the first slave whose state is not `target` (the loop bodies return at
the first offender).  `states i` is `ec_slave[i].state` after
`_readStates`. -/
def scanNotInState (target : Nat) (states : Nat → Nat) : Nat → Nat → Option Nat
  | 0, _ => none
  | remaining + 1, i =>
    if states i ≠ target then some i
    else scanNotInState target states remaining (i + 1)

/-- The whole scan, starting at slave 1 over `count` slaves. -/
def firstNotInState (target : Nat) (states : Nat → Nat) (count : Nat) : Option Nat :=
  scanNotInState target states count 1

/-- `SimpleEthercat::configSlaves` (part_003, lines 34-82).  `found` is the
result of `ec_config_init(FALSE)`; `rep` feeds the nested
`setPreOperationalState` poll loop; `postStates` is the slave state table
read back after it.  The zero-slave branch only sets `errorMessage` and
returns false. -/
def configSlaves (sess : Session) (found : Nat) (rep : Nat → Nat)
    (postStates : Nat → Nat) : Bool × Session :=
  if found > 0 then
    let sess1 : Session := { sess with slaveCount := found }
    let sess2 := (setPreOperationalState sess1 rep).2.1
    match firstNotInState EC_STATE_PRE_OP postStates found with
    | some _ =>
      (false, { sess2 with errorMessage :=
        "Error SimpleEthercat: Ethercat state can not switch to Pre Operational." })
    | none => (true, { sess2 with state := EC_STATE_PRE_OP })
  else
    (false, { sess with errorMessage :=
      "Error SimpleEthercat: Failed to config slaves. No slaves detected!" })

/-! ### C3: `setOperationalState` (part_003, lines 162-218)

After the bounded poll loop, `ec_readstate()` refreshes the slave table
(`finalStates`, `alCodes` below); the final scan
`for (i = 1; i <= ec_slavecount; i++)` prints one diagnostic line and
returns false at the FIRST slave whose state is not
`EC_STATE_OPERATIONAL`.  Its diagnostic carries the slave number, the raw
state value and `ec_ALstatuscode2string(ALstatuscode)` (oracle `al2str`). -/

structure OpDiag where
  slave : Nat
  rawState : Nat
  statusText : String
deriving Repr, DecidableEq

structure OpResult where
  flag : Bool
  sess : Session
  diags : List OpDiag
  polls : Nat
deriving Repr, DecidableEq

def setOperationalState (sess : Session) (rep : Nat → Nat)
    (finalStates : Nat → Nat) (alCodes : Nat → Nat) (al2str : Nat → String) :
    OpResult :=
  let polls := pollCount rep EC_STATE_OPERATIONAL
  match firstNotInState EC_STATE_OPERATIONAL finalStates sess.slaveCount with
  | some i =>
    { flag := false
      sess := { sess with errorMessage := "Slaves state can not set to operational state." }
      diags := [{ slave := i, rawState := finalStates i, statusText := al2str (alCodes i) }]
      polls := polls }
  | none =>
    { flag := true
      sess := { sess with state := EC_STATE_OPERATIONAL }
      diags := []
      polls := polls }

/-! ### C2: `setSafeOperationalState` (part_003, lines 270-335)

`flag` models `ec_statecheck(0, EC_STATE_SAFE_OP, EC_TIMEOUTSTATE*4) ==
EC_STATE_SAFE_OP`.  The expected work counter
`_expectedWKC = (ec_group[0].outputsWKC * 2) + ec_group[0].inputsWKC`
is assigned unconditionally before the flag is examined.  On failure, the
scan overwrites `errorMessage` with a formatted line for each slave whose
state is not `EC_STATE_SAFE_OP` (the last one wins). -/

def safeOpFailMessage (states : Nat → Nat) (alCodes : Nat → Nat)
    (al2str : Nat → String) (count : Nat) (msg0 : String) : String :=
  ((List.range count).map (· + 1)).foldl
    (fun msg i =>
      if states i ≠ EC_STATE_SAFE_OP then
        "Slave " ++ toString i ++ " failed to reach SAFE_OP. State: " ++
        toString (states i) ++ ", StatusCode: " ++ toString (alCodes i) ++
        " : " ++ al2str (alCodes i) ++
        "\nCheck slave configuration at pre_operational mode.\n"
      else msg)
    msg0

def setSafeOperationalState (sess : Session) (confirm : Bool)
    (outputsWKC inputsWKC : Int) (states : Nat → Nat) (alCodes : Nat → Nat)
    (al2str : Nat → String) : Bool × Session :=
  let sess1 : Session := { sess with expectedWKC := outputsWKC * 2 + inputsWKC }
  if confirm then
    (true, { sess1 with state := EC_STATE_SAFE_OP })
  else
    let msg := safeOpFailMessage states alCodes al2str sess.slaveCount sess.errorMessage
    (false, { sess1 with errorMessage := msg })

/-! ### C4: the monitor sweep `_ecatcheck` (part_003, lines 413-516)

One iteration of the `while(1)` loop.  The guard is
`(_state == EC_STATE_OPERATIONAL) && ((_wkc < _expectedWKC) ||
ec_group[_currentgroup].docheckstate)`.  Inside, `docheckstate` is reset,
`ec_readstate()` refreshes the table (the `EcSlave` list below), and the
per-slave repair ladder runs.  Wire outcomes are oracles: `reconfigOk i`
is `ec_reconfig_slave(i, EC_TIMEOUTMON)`, `recoverOk i` is
`ec_recover_slave(i, EC_TIMEOUTMON)`, and `recheckState i` is the state
read back by `ec_statecheck(i, EC_STATE_OPERATIONAL, EC_TIMEOUTRET)` in
the re-check branch.  The state-write requests the sweep issues are
recorded as `MonAction`s. -/

structure EcSlave where
  state : Nat
  islost : Bool
  group : Nat
deriving Repr, DecidableEq

structure MonCtx where
  reconfigOk : Nat → Bool
  recoverOk : Nat → Bool
  recheckState : Nat → Nat

inductive MonAction where
  | ackWrite (slave : Nat) : MonAction
  | opWrite (slave : Nat) : MonAction
  | reconfig (slave : Nat) : MonAction
  | recheck (slave : Nat) : MonAction
  | recover (slave : Nat) : MonAction
deriving Repr, DecidableEq

/-- The body of `for (slave = 1; slave <= ec_slavecount; slave++)` for one
slave `i` with record `s`: first the repair ladder (guarded by group
membership and `state != EC_STATE_OPERATIONAL`), then the independent
`if (ec_slave[slave].islost)` recovery clause on the updated record.
Returns the updated record, the actions issued, and the contribution to
`docheckstate`. -/
def sweepSlave (ctx : MonCtx) (g i : Nat) (s : EcSlave) :
    EcSlave × List MonAction × Bool :=
  let ladder : EcSlave × List MonAction × Bool :=
    if s.group = g ∧ s.state ≠ EC_STATE_OPERATIONAL then
      if s.state = EC_STATE_SAFE_OP + EC_STATE_ERROR then
        ({ s with state := EC_STATE_SAFE_OP + EC_STATE_ACK },
         [MonAction.ackWrite i], true)
      else if s.state = EC_STATE_SAFE_OP then
        ({ s with state := EC_STATE_OPERATIONAL }, [MonAction.opWrite i], true)
      else if s.state > EC_STATE_NONE then
        (if ctx.reconfigOk i then { s with islost := false } else s,
         [MonAction.reconfig i], true)
      else if ¬ s.islost then
        let st := ctx.recheckState i
        ({ s with state := st,
                  islost := if st = EC_STATE_NONE then true else s.islost },
         [MonAction.recheck i], true)
      else (s, [], true)
    else (s, [], false)
  let s1 := ladder.1
  let post : EcSlave × List MonAction :=
    if s1.islost then
      if s1.state = EC_STATE_NONE then
        (if ctx.recoverOk i then { s1 with islost := false } else s1,
         [MonAction.recover i])
      else ({ s1 with islost := false }, [])
    else (s1, [])
  (post.1, ladder.2.1 ++ post.2, ladder.2.2)

/-- The whole per-slave loop, slave indices starting at `i`. -/
def sweepAll (ctx : MonCtx) (g i : Nat) : List EcSlave → List EcSlave × List MonAction × Bool
  | [] => ([], [], false)
  | s :: rest =>
    let one := sweepSlave ctx g i s
    let more := sweepAll ctx g (i + 1) rest
    (one.1 :: more.1, one.2.1 ++ more.2.1, one.2.2 || more.2.2)

/-- The monitor's per-iteration session view: `_state`, `_wkc`,
`_expectedWKC` and `ec_group[_currentgroup].docheckstate`. -/
structure MonSession where
  state : Nat
  wkc : Int
  expectedWKC : Int
  docheckstate : Bool
deriving Repr, DecidableEq

/-- One iteration of the `while(1)` body of `_ecatcheck` (the trailing
`osal_usleep(10000)` aside).  When the guard fails nothing happens; when
it holds, `docheckstate` is cleared, the sweep runs, and `docheckstate`
ends up set exactly when some group slave was seen non-OPERATIONAL. -/
def ecatcheckIter (ctx : MonCtx) (g : Nat) (m : MonSession)
    (slaves : List EcSlave) : MonSession × List EcSlave × List MonAction :=
  if m.state = EC_STATE_OPERATIONAL ∧ (m.wkc < m.expectedWKC ∨ m.docheckstate) then
    let swept := sweepAll ctx g 1 slaves
    ({ m with docheckstate := swept.2.2 }, swept.1, swept.2.1)
  else (m, slaves, [])

/-! ### C5: the SM-type workaround in `si_map_sdo` (part_000, lines 556-617)

The loop `for (iSM = 2; iSM <= nSM; iSM++)` reads each sync manager's
communication type (`raw iSM`, a `uint8`; `readOk iSM` models
`wkc > 0`).  On iteration 2 only, `if((iSM == 2) && (tSM == 2))` arms
`SMt_bug_add = 1`; thereafter `if(tSM) tSM += SMt_bug_add` (uint8
arithmetic), and the adjusted type is classified: 3 means outputs, 4 means
inputs. -/

inductive SMClass where
  | outputs : SMClass
  | inputs : SMClass
  | unmapped : SMClass
deriving Repr, DecidableEq

/-- One loop iteration: given the `SMt_bug_add` value carried in, produce
the value carried out and this sync manager's classification. -/
def mapSdoStep (readOk : Nat → Bool) (raw : Nat → Nat) (iSM bugAdd : Nat) :
    Nat × SMClass :=
  if readOk iSM then
    let bugAdd1 := if iSM = 2 ∧ raw iSM = 2 then 1 else bugAdd
    let t := if raw iSM ≠ 0 then (raw iSM + bugAdd1) % 256 else raw iSM
    (bugAdd1,
     if t = 3 then SMClass.outputs
     else if t = 4 then SMClass.inputs
     else SMClass.unmapped)
  else (bugAdd, SMClass.unmapped)

/-- `SMt_bug_add` after the iteration for sync manager `n` (iterations
start at `iSM = 2`; before that the variable is 0). -/
def mapSdoBugAdd (readOk : Nat → Bool) (raw : Nat → Nat) : Nat → Nat
  | 0 => 0
  | n + 1 =>
    if n + 1 < 2 then 0
    else (mapSdoStep readOk raw (n + 1) (mapSdoBugAdd readOk raw n)).1

/-- The classification `si_map_sdo` gives sync manager `iSM`. -/
def mapSdoClass (readOk : Nat → Bool) (raw : Nat → Nat) (iSM : Nat) : SMClass :=
  (mapSdoStep readOk raw iSM (mapSdoBugAdd readOk raw (iSM - 1))).2

/-! ### C6: the bounded PDO walk in `si_siiPDO` (part_000, lines 645-719)

The `do { ... } while (c < PDO->Length)` loop.  Per record the cursor `c`
advances by `1 + 2 + 4*e + 1 = 4 + 4*e` words whether or not the record's
sync manager is in range (`e` entries read in the in-range branch,
`c += 4*e` in the skip branch), `nPDO` is incremented at the top, and
`if (PDO->nPDO >= (EC_MAXEEPDO - 1)) c = PDO->Length` forces the loop
condition false — rendered here as an early return, since assigning
`c = PDO->Length` makes `c < PDO->Length` false.  `entryCount r` is the
entry count byte `e` of record `r`.  The function returns the final
`nPDO`, the number of records processed (each record `r` writes table
slots at index `r ≤ nPDO`). -/

def siiPDOloop (entryCount : Nat → Nat) (len c nPDO : Nat) : Nat :=
  let nPDO1 := nPDO + 1
  let c1 := c + 4 + 4 * entryCount nPDO1
  if EC_MAXEEPDO - 1 ≤ nPDO1 then nPDO1
  else if c1 < len then siiPDOloop entryCount len c1 nPDO1 else nPDO1
termination_by len - c
decreasing_by
  simp only [c1, nPDO1] at *
  omega

/-- The walk as entered from `si_siiPDO`: after reading the two length
bytes, `c = 1`, `nPDO = 0`, and the do-while body runs at least once. -/
def siiPDOwalk (entryCount : Nat → Nat) (len : Nat) : Nat :=
  siiPDOloop entryCount len 1 0

/-! ## Sanity checks (scratch) -/

example : (updateProccess 5 5).2 = true := by decide
example : (updateProccess 5 4).2 = false := by decide
example : (updateProccess 5 6).2 = true := by decide
set_option maxRecDepth 3000 in
example : pollCount (fun _ => 4) 2 = 201 := by decide
example : pollCount (fun k => if k = 3 then 2 else 4) 2 = 4 := by decide
example : firstNotInState 8 (fun _ => 4) 2 = some 1 := by decide
example : firstNotInState 8 (fun i => if i = 1 then 8 else 4) 2 = some 2 := by decide
example : firstNotInState 8 (fun _ => 8) 2 = none := by decide
example :
    sweepSlave ⟨fun _ => true, fun _ => true, fun _ => 0⟩ 0 1 ⟨20, false, 0⟩ =
      (⟨20, false, 0⟩, [MonAction.ackWrite 1], true) := by decide
example :
    sweepSlave ⟨fun _ => true, fun _ => true, fun _ => 0⟩ 0 1 ⟨4, false, 0⟩ =
      (⟨8, false, 0⟩, [MonAction.opWrite 1], true) := by decide
example :
    sweepSlave ⟨fun _ => true, fun _ => true, fun _ => 0⟩ 0 1 ⟨1, true, 0⟩ =
      (⟨1, false, 0⟩, [MonAction.reconfig 1], true) := by decide
example :
    sweepSlave ⟨fun _ => false, fun _ => false, fun _ => 0⟩ 0 1 ⟨0, false, 0⟩ =
      (⟨0, true, 0⟩, [MonAction.recheck 1, MonAction.recover 1], true) := by decide
example :
    sweepSlave ⟨fun _ => false, fun _ => false, fun _ => 5⟩ 0 1 ⟨8, true, 0⟩ =
      (⟨8, false, 0⟩, [], false) := by decide
example : mapSdoClass (fun _ => true) (fun i => if i = 2 then 2 else 3) 2 = SMClass.outputs := by decide
example : mapSdoClass (fun _ => true) (fun i => if i = 2 then 2 else 3) 3 = SMClass.inputs := by decide
example : mapSdoClass (fun _ => true) (fun _ => 3) 3 = SMClass.outputs := by decide
example : mapSdoClass (fun _ => true) (fun _ => 3) 2 = SMClass.outputs := by decide

/-! ## Theorems -/

/-- **C1.** `updateProccess()` performs exactly one `ec_send_processdata`
followed by one `ec_receive_processdata(EC_TIMEOUTRET)` (a bounded-timeout
receive), and returns failure exactly when the returned work counter is
strictly below the stored expected work counter; in particular a work
counter equal to the expected value yields success. -/
theorem updateProccess_shortfall_iff (expectedWKC recvWkc : Int) :
    (updateProccess expectedWKC recvWkc).1 =
      [BusOp.sendProcessdata, BusOp.receiveProcessdata EC_TIMEOUTRET] ∧
    ((updateProccess expectedWKC recvWkc).2 = false ↔ recvWkc < expectedWKC) ∧
    (updateProccess expectedWKC expectedWKC).2 = true := by
  refine ⟨rfl, ?_, ?_⟩
  · by_cases hlt : recvWkc < expectedWKC <;> simp [updateProccess, hlt]
  · simp [updateProccess]

/-- **C7.** A filler PDO sub-entry (object index 0 and sub-index 0)
produces no named mapping row in either mapping strategy — `si_PDOassign`
skips the dictionary lookup that names the row, `si_siiPDO` skips the row
entirely — yet its bit length still advances the running bit-offset
counter by exactly that amount in both. -/
theorem filler_entry_unnamed_advances_offset
    (dictEntries : Bool) (bitlen bitoffset bsize totalsize : Nat) :
    (pdoAssignEntry dictEntries 0 0 bitlen bitoffset bsize).1 = none ∧
    (pdoAssignEntry dictEntries 0 0 bitlen bitoffset bsize).2.1 = bitoffset + bitlen ∧
    (siiPDOEntry 0 0 bitlen bitoffset totalsize).1 = none ∧
    (siiPDOEntry 0 0 bitlen bitoffset totalsize).2.1 = bitoffset + bitlen := by
  refine ⟨?_, rfl, ?_, rfl⟩ <;> simp [pdoAssignEntry, siiPDOEntry]

/-- **C9.** When discovery (`ec_config_init`) reports zero slaves,
`configSlaves()` returns false and stores the no-slaves error message,
while the session's slave count and aggregate state field keep the values
they had before the call. -/
theorem configSlaves_zero_slaves (sess : Session) (rep postStates : Nat → Nat) :
    (configSlaves sess 0 rep postStates).1 = false ∧
    (configSlaves sess 0 rep postStates).2.errorMessage =
      "Error SimpleEthercat: Failed to config slaves. No slaves detected!" ∧
    (configSlaves sess 0 rep postStates).2.slaveCount = sess.slaveCount ∧
    (configSlaves sess 0 rep postStates).2.state = sess.state := by
  refine ⟨rfl, rfl, rfl, rfl⟩

/-- **C10.** The state-to-string conversion `_slaveStateNum2Str` used by
`listSlaves()` and `showStates()` returns `"NONE"` for every state value
outside the seven enumerated case labels — in particular for the
composite `SAFE_OPERATIONAL + ERROR` value — so both diagnostic listings
render error-flagged states as `"NONE"` rather than displaying the error
flag. -/
theorem slaveStateNum2Str_default_NONE (n : Nat)
    (hNone : n ≠ EC_STATE_NONE) (hInit : n ≠ EC_STATE_INIT)
    (hPre : n ≠ EC_STATE_PRE_OP) (hBoot : n ≠ EC_STATE_BOOT)
    (hSafe : n ≠ EC_STATE_SAFE_OP) (hOp : n ≠ EC_STATE_OPERATIONAL)
    (hErr : n ≠ EC_STATE_ERROR) :
    slaveStateNum2Str n = "NONE" ∧
    (∀ code : Nat, showStatesRender [(n, code)] = [("NONE", code)]) ∧
    listSlavesRender [n] = ["NONE"] ∧
    slaveStateNum2Str (EC_STATE_SAFE_OP + EC_STATE_ERROR) = "NONE" := by
  have hmain : slaveStateNum2Str n = "NONE" := by
    simp [slaveStateNum2Str, hNone, hInit, hPre, hBoot, hSafe, hOp, hErr]
  refine ⟨hmain, ?_, ?_, rfl⟩
  · intro code
    simp [showStatesRender, hmain]
  · simp [listSlavesRender, hmain]

/-- Witness for C10 at the composite state `SAFE_OP + ERROR = 0x14`. -/
theorem slaveStateNum2Str_default_NONE_witness :
    slaveStateNum2Str 20 = "NONE" ∧ showStatesRender [(20, 27)] = [("NONE", 27)] := by
  have h := slaveStateNum2Str_default_NONE 20
    (by decide) (by decide) (by decide) (by decide) (by decide) (by decide) (by decide)
  exact ⟨h.1, h.2.1 27⟩

/-- **C2.** Whenever a SAFE_OPERATIONAL transition is confirmed by
`setSafeOperationalState()` (the group state check returned `SAFE_OP`),
the stored expected work counter of the returned session equals exactly
`2 * outputsWKC + inputsWKC` of the group — for every prior session state,
so the value is recomputed fresh, never reused. -/
theorem setSafeOperationalState_expectedWKC (sess : Session) (confirm : Bool)
    (outputsWKC inputsWKC : Int) (states alCodes : Nat → Nat)
    (al2str : Nat → String) (hconf : confirm = true) :
    (setSafeOperationalState sess confirm outputsWKC inputsWKC
        states alCodes al2str).2.expectedWKC = 2 * outputsWKC + inputsWKC := by
  subst hconf
  simp [setSafeOperationalState]
  ring

/-- Witness for C2: a concrete confirmed transition with stale stored
counter 7 ends with expected counter `2*3 + 5 = 11`. -/
theorem setSafeOperationalState_expectedWKC_witness :
    (setSafeOperationalState ⟨2, 7, 2, ""⟩ true 3 5
        (fun _ => 4) (fun _ => 0) (fun _ => "")).2.expectedWKC = 11 := by
  have h := setSafeOperationalState_expectedWKC ⟨2, 7, 2, ""⟩ true 3 5
    (fun _ => 4) (fun _ => 0) (fun _ => "") rfl
  simpa using h

/-- The `do { ... } while (chk-- && ...)` loop runs the body at most
`chk + 1` more times after the body execution for reading `k`. -/
theorem pollCountAux_le (rep : Nat → Nat) (t : Nat) :
    ∀ chk k, pollCountAux rep t chk k ≤ k + chk + 1 := by
  intro chk
  induction chk with
  | zero =>
    intro k
    simp [pollCountAux]
  | succ n ih =>
    intro k
    show (if rep k = t then k + 1 else pollCountAux rep t n (k + 1)) ≤ k + (n + 1) + 1
    by_cases hx : rep k = t
    · rw [if_pos hx]
      omega
    · rw [if_neg hx]
      exact le_trans (ih (k + 1)) (by omega)

/-- When the representative state never reads the target, the poll loop
exhausts its whole budget: the body runs exactly `chk + 1` more times. -/
theorem pollCountAux_exhaust (rep : Nat → Nat) (t : Nat)
    (hnever : ∀ k, rep k ≠ t) :
    ∀ chk k, pollCountAux rep t chk k = k + chk + 1 := by
  intro chk
  induction chk with
  | zero =>
    intro k
    simp [pollCountAux]
  | succ n ih =>
    intro k
    show (if rep k = t then k + 1 else pollCountAux rep t n (k + 1)) = k + (n + 1) + 1
    rw [if_neg (hnever k), ih (k + 1)]
    omega

/-- Characterization of the first-offender scan: a `some j` result means
slave `j` is the least index at or after `i` whose state differs from the
target, and it lies within the scanned window. -/
theorem scanNotInState_spec (target : Nat) (states : Nat → Nat) :
    ∀ remaining i j, scanNotInState target states remaining i = some j →
      states j ≠ target ∧ i ≤ j ∧ j < i + remaining ∧
      ∀ m, i ≤ m → m < j → states m = target := by
  intro remaining
  induction remaining with
  | zero =>
    intro i j h
    simp [scanNotInState] at h
  | succ r ih =>
    intro i j h
    by_cases hx : states i ≠ target
    · simp [scanNotInState, hx] at h
      subst h
      exact ⟨hx, le_refl i, by omega, fun m hm1 hm2 => by omega⟩
    · push_neg at hx
      simp [scanNotInState, hx] at h
      obtain ⟨h1, h2, h3, h4⟩ := ih (i + 1) j h
      refine ⟨h1, by omega, by omega, ?_⟩
      intro m hm1 hm2
      rcases eq_or_lt_of_le hm1 with heq | hlt
      · rw [← heq]
        exact hx
      · exact h4 m hlt hm2

set_option maxRecDepth 3000 in
/-- Counterexample to **C8**: a PRE_OPERATIONAL request whose
representative state reads `SAFE_OP` at every one of the 201 poll-body
executions (the full retry budget, `polls = 201`, with no reading ever
equal to `PRE_OP`) still returns `true` and leaves the last-error message
empty — the call reports success and populates nothing. -/
theorem setPreOperationalState_success_despite_timeout :
    (setPreOperationalState ⟨EC_STATE_SAFE_OP, 0, 1, ""⟩
        (fun _ => EC_STATE_SAFE_OP)).1 = true ∧
    (setPreOperationalState ⟨EC_STATE_SAFE_OP, 0, 1, ""⟩
        (fun _ => EC_STATE_SAFE_OP)).2.2 = 201 ∧
    ((List.range 202).all
        (fun k => (fun _ : Nat => EC_STATE_SAFE_OP) k != EC_STATE_PRE_OP)) = true ∧
    (setPreOperationalState ⟨EC_STATE_SAFE_OP, 0, 1, ""⟩
        (fun _ => EC_STATE_SAFE_OP)).2.1.errorMessage = "" := by
  refine ⟨rfl, by decide, by decide, rfl⟩

/-- **C8 (amended).** `setInitState` and `setPreOperationalState` run the
same transition sequence with the same bounded retry budget (at most 201
poll-body executions), but they have no failure step: for every input,
`setPreOperationalState` returns `true`, `setInitState` returns no flag at
all, neither ever writes the retrievable last-error message, and both
unconditionally record the requested state as the aggregate session
state. -/
theorem setPreOp_setInit_no_failure_step (sess : Session) (repP repI : Nat → Nat) :
    (setPreOperationalState sess repP).1 = true ∧
    (setPreOperationalState sess repP).2.1.errorMessage = sess.errorMessage ∧
    (setPreOperationalState sess repP).2.1.state = EC_STATE_PRE_OP ∧
    (setPreOperationalState sess repP).2.2 ≤ 201 ∧
    (setInitState sess repI).1.errorMessage = sess.errorMessage ∧
    (setInitState sess repI).1.state = EC_STATE_INIT ∧
    (setInitState sess repI).2 ≤ 201 := by
  refine ⟨rfl, rfl, rfl, ?_, rfl, rfl, ?_⟩ <;>
    simpa using pollCountAux_le _ _ 200 0

set_option maxRecDepth 3000 in
/-- Counterexample to **C3**: with two slaves both stuck at `SAFE_OP`
after the poll loop, the slaves below the OPERATIONAL target are `[1, 2]`,
but the diagnostic produced by `setOperationalState()` names only slave 1:
the final scan returns at the first offender. -/
theorem setOperationalState_names_only_first_failing :
    ((setOperationalState ⟨EC_STATE_SAFE_OP, 0, 2, ""⟩ (fun _ => EC_STATE_SAFE_OP)
        (fun _ => EC_STATE_SAFE_OP) (fun _ => 0) (fun _ => "no error")).diags.map
          OpDiag.slave = [1]) ∧
    (((List.range 2).map (fun n => n + 1)).filter
        (fun i => (fun _ : Nat => EC_STATE_SAFE_OP) i != EC_STATE_OPERATIONAL)
      = [1, 2]) ∧
    ([1] ≠ ([1, 2] : List Nat)) := by
  refine ⟨by decide, by decide, by decide⟩

/-- **C3 (amended).** When the re-read state table after the bounded poll
loop (at most 201 poll-body executions) shows some slave below
OPERATIONAL — as happens when a slave never confirms the request —
`setOperationalState()` returns failure, stores the error message, and
produces a diagnostic naming exactly the FIRST such slave (the least
offending index), with its raw state value and its status code translated
to text; later offenders are not named. -/
theorem setOperationalState_failure_first_diag (sess : Session)
    (rep finalStates alCodes : Nat → Nat) (al2str : Nat → String) (j : Nat)
    (hj : firstNotInState EC_STATE_OPERATIONAL finalStates sess.slaveCount = some j) :
    (setOperationalState sess rep finalStates alCodes al2str).flag = false ∧
    (setOperationalState sess rep finalStates alCodes al2str).sess.errorMessage =
      "Slaves state can not set to operational state." ∧
    (setOperationalState sess rep finalStates alCodes al2str).diags =
      [{ slave := j, rawState := finalStates j, statusText := al2str (alCodes j) }] ∧
    finalStates j ≠ EC_STATE_OPERATIONAL ∧ 1 ≤ j ∧ j ≤ sess.slaveCount ∧
    (∀ m, 1 ≤ m → m < j → finalStates m = EC_STATE_OPERATIONAL) ∧
    (setOperationalState sess rep finalStates alCodes al2str).polls ≤ 201 := by
  obtain ⟨h1, h2, h3, h4⟩ :=
    scanNotInState_spec EC_STATE_OPERATIONAL finalStates sess.slaveCount 1 j hj
  refine ⟨?_, ?_, ?_, h1, h2, by omega, h4, ?_⟩
  · simp [setOperationalState, hj]
  · simp [setOperationalState, hj]
  · simp [setOperationalState, hj]
  · simpa [setOperationalState, hj, pollCount] using pollCountAux_le rep EC_STATE_OPERATIONAL 200 0

/-- Witness for the amended C3 at a concrete input: two slaves, both stuck
at `SAFE_OP`; the call fails and the single diagnostic names slave 1 with
raw state 4 and the translated status text. -/
theorem setOperationalState_failure_first_diag_witness :
    (setOperationalState ⟨4, 0, 2, ""⟩ (fun _ => 4) (fun _ => 4) (fun _ => 1)
        (fun _ => "code text")).flag = false ∧
    (setOperationalState ⟨4, 0, 2, ""⟩ (fun _ => 4) (fun _ => 4) (fun _ => 1)
        (fun _ => "code text")).diags =
      [{ slave := 1, rawState := 4, statusText := "code text" }] := by
  have h := setOperationalState_failure_first_diag ⟨4, 0, 2, ""⟩ (fun _ => 4)
    (fun _ => 4) (fun _ => 1) (fun _ => "code text") 1 (by decide)
  exact ⟨h.1, h.2.2.1⟩

/-- Once sync manager 2 reads communication type 2 (and that read
succeeded), `SMt_bug_add` is 1 from iteration 2 onwards: the arming
condition only fires on the first iteration and the variable is never
cleared. -/
theorem mapSdoBugAdd_armed (readOk : Nat → Bool) (raw : Nat → Nat)
    (h2 : readOk 2 = true) (hraw : raw 2 = 2) :
    ∀ n, 2 ≤ n → mapSdoBugAdd readOk raw n = 1 := by
  intro n
  induction n with
  | zero =>
    intro h
    omega
  | succ m ih =>
    intro hm
    show (if m + 1 < 2 then 0
          else (mapSdoStep readOk raw (m + 1) (mapSdoBugAdd readOk raw m)).1) = 1
    rw [if_neg (by omega)]
    by_cases hm2 : 2 ≤ m
    · rw [ih hm2]
      by_cases hro : readOk (m + 1) = true
      · simp only [mapSdoStep, hro, if_true]
        split <;> rfl
      · simp only [mapSdoStep, hro]
        simp
    · have hm1 : m = 1 := by omega
      subst hm1
      have h1 : mapSdoBugAdd readOk raw 1 = 0 := rfl
      rw [h1]
      simp [mapSdoStep, h2, hraw]

/-- **C5.** Given that sync manager 2 reported communication type 2
(arming the workaround of `si_map_sdo`), every subsequently read
communication type is classified after the +1 correction: the sync
manager is mapped as outputs exactly when its raw type plus one (as a
byte) equals 3, and as inputs exactly when it equals 4. -/
theorem sm_type_workaround (readOk : Nat → Bool) (raw : Nat → Nat) (iSM : Nat)
    (h2 : readOk 2 = true) (hraw : raw 2 = 2) (hge : 2 ≤ iSM)
    (hok : readOk iSM = true) :
    (mapSdoClass readOk raw iSM = SMClass.outputs ↔ (raw iSM + 1) % 256 = 3) ∧
    (mapSdoClass readOk raw iSM = SMClass.inputs ↔ (raw iSM + 1) % 256 = 4) := by
  have hstep : mapSdoClass readOk raw iSM =
      (if (if raw iSM ≠ 0 then (raw iSM + 1) % 256 else raw iSM) = 3 then SMClass.outputs
       else if (if raw iSM ≠ 0 then (raw iSM + 1) % 256 else raw iSM) = 4 then SMClass.inputs
       else SMClass.unmapped) := by
    unfold mapSdoClass
    rcases eq_or_lt_of_le hge with heq | hlt
    · rw [← heq]
      have h1 : mapSdoBugAdd readOk raw (2 - 1) = 0 := rfl
      rw [h1]
      simp [mapSdoStep, h2, hraw]
    · have hb : mapSdoBugAdd readOk raw (iSM - 1) = 1 :=
        mapSdoBugAdd_armed readOk raw h2 hraw (iSM - 1) (by omega)
      rw [hb]
      have hne2 : ¬(iSM = 2 ∧ raw iSM = 2) := by
        rintro ⟨he, -⟩
        omega
      simp only [mapSdoStep, hok, if_true, hne2, if_false]
  rw [hstep]
  by_cases h0 : raw iSM = 0
  · simp [h0]
  · simp only [h0, ne_eq, not_false_iff, if_true]
    by_cases h3 : (raw iSM + 1) % 256 = 3
    · simp [h3]
    · by_cases h4 : (raw iSM + 1) % 256 = 4
      · simp [h3, h4]
      · simp [h3, h4]

/-- Witness for C5: with SM2 reporting raw type 2 and SM3 reporting raw
type 3, SM3 is classified as inputs (3 + 1 = 4). -/
theorem sm_type_workaround_witness :
    mapSdoClass (fun _ => true) (fun i => if i = 2 then 2 else 3) 3 = SMClass.inputs := by
  have h := sm_type_workaround (fun _ => true) (fun i => if i = 2 then 2 else 3) 3
    rfl (by decide) (by decide) rfl
  exact h.2.mpr (by decide)

/-- One unfolding of the record walk. -/
theorem siiPDOloop_unfold (entryCount : Nat → Nat) (len c nPDO : Nat) :
    siiPDOloop entryCount len c nPDO =
      (if EC_MAXEEPDO - 1 ≤ nPDO + 1 then nPDO + 1
       else if c + 4 + 4 * entryCount (nPDO + 1) < len then
         siiPDOloop entryCount len (c + 4 + 4 * entryCount (nPDO + 1)) (nPDO + 1)
       else nPDO + 1) := by
  rw [siiPDOloop]

/-- Invariant of the walk: starting below the cap, the final record count
never exceeds `EC_MAXEEPDO - 1`, whatever the declared section length and
the per-record entry counts. -/
theorem siiPDOloop_le (entryCount : Nat → Nat) (len : Nat) :
    ∀ fuel c nPDO, len - c ≤ fuel → nPDO < EC_MAXEEPDO - 1 →
      siiPDOloop entryCount len c nPDO ≤ EC_MAXEEPDO - 1 := by
  have hE : EC_MAXEEPDO = 512 := rfl
  intro fuel
  induction fuel with
  | zero =>
    intro c nPDO hf hn
    rw [siiPDOloop_unfold]
    split
    · omega
    · split
      · omega
      · omega
  | succ m ih =>
    intro c nPDO hf hn
    rw [siiPDOloop_unfold]
    split
    · omega
    · split
      · exact ih (c + 4 + 4 * entryCount (nPDO + 1)) (nPDO + 1) (by omega) (by omega)
      · omega

/-- **C6.** For every slave descriptor-memory section (any declared
length, any per-record entry counts) the PDO walk of `si_siiPDO`
terminates having processed at most `EC_MAXEEPDO - 1` records — even when
the declared length implies more — and in particular the record count
stays strictly below the `EC_MAXEEPDO`-sized record table, so no slot
past the table is written. -/
theorem siiPDOwalk_bounded (entryCount : Nat → Nat) (len : Nat) :
    siiPDOwalk entryCount len ≤ EC_MAXEEPDO - 1 ∧
    siiPDOwalk entryCount len < EC_MAXEEPDO := by
  have hE : EC_MAXEEPDO = 512 := rfl
  have h : siiPDOwalk entryCount len ≤ EC_MAXEEPDO - 1 :=
    siiPDOloop_le entryCount len (len - 1) 1 0 (by omega) (by omega)
  exact ⟨h, by omega⟩

/-- **C4.** The monitor iteration of `_ecatcheck`: (guard) a sweep runs
only when the aggregate state is OPERATIONAL and the last work counter is
below the expected value or the pending-recheck flag is set — otherwise
the iteration changes nothing and issues nothing; and on a sweep, each
slave of the current group that is not OPERATIONAL receives exactly the
first applicable ladder rule: (a) `SAFE_OP + ERROR` gets an ACK
state-write, (b) plain `SAFE_OP` gets a direct OPERATIONAL state-write,
(c) any state above NONE gets a reconfiguration, clearing the lost flag
on success, (d) state NONE with the lost flag clear gets one short
re-check and is marked lost if it still reads NONE (and is then offered
recovery); independently, every slave flagged lost is offered recovery if
still NONE — whether or not it is in the group — or has its lost flag
cleared without further action if it reports a real state. -/
theorem ecatcheck_guard_and_repair_ladder :
    (∀ (ctx : MonCtx) (g : Nat) (m : MonSession) (slaves : List EcSlave),
      ¬(m.state = EC_STATE_OPERATIONAL ∧
          (m.wkc < m.expectedWKC ∨ m.docheckstate = true)) →
      ecatcheckIter ctx g m slaves = (m, slaves, [])) ∧
    (∀ (ctx : MonCtx) (g i : Nat) (s : EcSlave), s.group = g →
      s.state = EC_STATE_SAFE_OP + EC_STATE_ERROR →
      sweepSlave ctx g i s =
        ({ s with state := EC_STATE_SAFE_OP + EC_STATE_ACK, islost := false },
         [MonAction.ackWrite i], true)) ∧
    (∀ (ctx : MonCtx) (g i : Nat) (s : EcSlave), s.group = g →
      s.state = EC_STATE_SAFE_OP →
      sweepSlave ctx g i s =
        ({ s with state := EC_STATE_OPERATIONAL, islost := false },
         [MonAction.opWrite i], true)) ∧
    (∀ (ctx : MonCtx) (g i : Nat) (s : EcSlave), s.group = g →
      s.state ≠ EC_STATE_OPERATIONAL →
      s.state ≠ EC_STATE_SAFE_OP + EC_STATE_ERROR → s.state ≠ EC_STATE_SAFE_OP →
      EC_STATE_NONE < s.state →
      (sweepSlave ctx g i s).2.1 = [MonAction.reconfig i] ∧
      (sweepSlave ctx g i s).1.state = s.state ∧
      (ctx.reconfigOk i = true → (sweepSlave ctx g i s).1.islost = false)) ∧
    (∀ (ctx : MonCtx) (g i : Nat) (s : EcSlave), s.group = g →
      s.state = EC_STATE_NONE → s.islost = false →
      ctx.recheckState i = EC_STATE_NONE →
      sweepSlave ctx g i s =
        ({ s with state := EC_STATE_NONE, islost := !ctx.recoverOk i },
         [MonAction.recheck i, MonAction.recover i], true)) ∧
    (∀ (ctx : MonCtx) (g i : Nat) (s : EcSlave), s.group = g →
      s.state = EC_STATE_NONE → s.islost = false →
      ctx.recheckState i ≠ EC_STATE_NONE →
      sweepSlave ctx g i s =
        ({ s with state := ctx.recheckState i, islost := false },
         [MonAction.recheck i], true)) ∧
    (∀ (ctx : MonCtx) (g i : Nat) (s : EcSlave), s.group = g →
      s.state = EC_STATE_NONE → s.islost = true →
      sweepSlave ctx g i s =
        ((if ctx.recoverOk i then { s with islost := false } else s),
         [MonAction.recover i], true)) ∧
    (∀ (ctx : MonCtx) (g i : Nat) (s : EcSlave),
      ¬(s.group = g ∧ s.state ≠ EC_STATE_OPERATIONAL) → s.islost = true →
      s.state = EC_STATE_NONE →
      sweepSlave ctx g i s =
        ((if ctx.recoverOk i then { s with islost := false } else s),
         [MonAction.recover i], false)) ∧
    (∀ (ctx : MonCtx) (g i : Nat) (s : EcSlave),
      ¬(s.group = g ∧ s.state ≠ EC_STATE_OPERATIONAL) → s.islost = true →
      s.state ≠ EC_STATE_NONE →
      sweepSlave ctx g i s = ({ s with islost := false }, [], false)) := by
  refine ⟨?_, ?_, ?_, ?_, ?_, ?_, ?_, ?_, ?_⟩
  · intro ctx g m slaves hg
    simp only [ecatcheckIter]
    rw [if_neg hg]
  · intro ctx g i s hg hs
    cases hsl : s.islost <;>
      simp [sweepSlave, hg, hs, hsl, EC_STATE_SAFE_OP, EC_STATE_ERROR,
        EC_STATE_ACK, EC_STATE_OPERATIONAL, EC_STATE_NONE]
  · intro ctx g i s hg hs
    cases hsl : s.islost <;>
      simp [sweepSlave, hg, hs, hsl, EC_STATE_SAFE_OP, EC_STATE_ERROR,
        EC_STATE_ACK, EC_STATE_OPERATIONAL, EC_STATE_NONE]
  · intro ctx g i s hg hop h20 h4 h0
    have hne : s.state ≠ EC_STATE_NONE := by
      simp only [EC_STATE_NONE] at h0 ⊢
      omega
    cases hrc : ctx.reconfigOk i <;> cases hsl : s.islost <;>
      simp [sweepSlave, hg, hop, h20, h4, h0, hne, hrc, hsl]
  · intro ctx g i s hg hs hsl hrc
    cases hrv : ctx.recoverOk i <;>
      simp [sweepSlave, hg, hs, hsl, hrc, hrv, EC_STATE_SAFE_OP, EC_STATE_ERROR,
        EC_STATE_OPERATIONAL, EC_STATE_NONE]
  · intro ctx g i s hg hs hsl hrc
    have hrc0 : ctx.recheckState i ≠ 0 := hrc
    simp [sweepSlave, hg, hs, hsl, hrc0, EC_STATE_SAFE_OP, EC_STATE_ERROR,
      EC_STATE_OPERATIONAL, EC_STATE_NONE]
  · intro ctx g i s hg hs hsl
    cases hrv : ctx.recoverOk i <;>
      simp [sweepSlave, hg, hs, hsl, hrv, EC_STATE_SAFE_OP, EC_STATE_ERROR,
        EC_STATE_OPERATIONAL, EC_STATE_NONE]
  · intro ctx g i s hg hsl hs
    cases hrv : ctx.recoverOk i <;>
      (simp only [sweepSlave, if_neg hg]; simp [hs, hsl, hrv])
  · intro ctx g i s hg hsl hs
    simp only [sweepSlave, if_neg hg]
    simp [hs, hsl]

/-- Witness for C4: a concrete non-OPERATIONAL session where the guard
fails and the iteration is a no-op, and a concrete group slave in
`SAFE_OP + ERROR` (raw state 20) that receives exactly the ACK
state-write. -/
theorem ecatcheck_guard_and_repair_ladder_witness :
    ecatcheckIter ⟨fun _ => true, fun _ => true, fun _ => 0⟩ 0
        ⟨4, 0, 5, false⟩ [⟨4, false, 0⟩] =
      (⟨4, 0, 5, false⟩, [⟨4, false, 0⟩], []) ∧
    sweepSlave ⟨fun _ => true, fun _ => true, fun _ => 0⟩ 0 1 ⟨20, false, 0⟩ =
      (⟨20, false, 0⟩, [MonAction.ackWrite 1], true) := by
  have h := ecatcheck_guard_and_repair_ladder
  refine ⟨h.1 ⟨fun _ => true, fun _ => true, fun _ => 0⟩ 0 ⟨4, 0, 5, false⟩
    [⟨4, false, 0⟩] (by decide), ?_⟩
  have h2 := h.2.1 ⟨fun _ => true, fun _ => true, fun _ => 0⟩ 0 1
    ⟨20, false, 0⟩ rfl rfl
  exact h2

end SimpleEthercat
